import Mathlib

/-!
Verification of the cftools.js authentication-token lifecycle and
request-dispatch pipeline against its natural-language specification.

The TypeScript source is shallowly embedded: each relevant class method
becomes a Lean function over an explicit state record, JavaScript object
spreads become key/value-list merges, thrown errors become an Except
error channel, and the cooperative async scheduler is modelled as a
small-step transition relation over task program counters.
-/

namespace CFTools

/-! ## Constants (src/constants.ts) -/

/-- UnitConstants.MS_IN_ONE_S (src/constants.ts). -/
def MS_IN_ONE_S : Nat := 1000

/-- UnitConstants.S_IN_ONE_M (src/constants.ts). -/
def S_IN_ONE_M : Nat := 60

/-- UnitConstants.M_IN_ONE_H (src/constants.ts). -/
def M_IN_ONE_H : Nat := 60

/-- UnitConstants.H_IN_ONE_D (src/constants.ts). -/
def H_IN_ONE_D : Nat := 24

/-- UnitConstants.MS_IN_ONE_M (src/constants.ts). -/
def MS_IN_ONE_M : Nat := MS_IN_ONE_S * S_IN_ONE_M

/-- UnitConstants.MS_IN_ONE_H (src/constants.ts). -/
def MS_IN_ONE_H : Nat := MS_IN_ONE_M * M_IN_ONE_H

/-- UnitConstants.MS_IN_ONE_D (src/constants.ts). -/
def MS_IN_ONE_D : Nat := MS_IN_ONE_H * H_IN_ONE_D

/-- AUTHENTICATION_TOKEN_VALIDITY = UnitConstants.MS_IN_ONE_D. -/
def AUTHENTICATION_TOKEN_VALIDITY : Nat := MS_IN_ONE_D

/-- AUTHENTICATION_TOKEN_VALIDITY_BUFFER = UnitConstants.MS_IN_ONE_H. -/
def AUTHENTICATION_TOKEN_VALIDITY_BUFFER : Nat := MS_IN_ONE_H

/-- AUTHENTICATION_TOKEN_REFRESH_INTERVAL =
AUTHENTICATION_TOKEN_VALIDITY - AUTHENTICATION_TOKEN_VALIDITY_BUFFER. -/
def AUTHENTICATION_TOKEN_REFRESH_INTERVAL : Nat :=
  AUTHENTICATION_TOKEN_VALIDITY - AUTHENTICATION_TOKEN_VALIDITY_BUFFER

/-- API_BASE_URL (src/constants.ts). -/
def API_BASE_URL : String := "https://data.cftools.cloud"

/-- ENTERPRISE_BASE_URL (src/constants.ts). -/
def ENTERPRISE_BASE_URL : String := "https://epr-data.cftools.cloud"

/-- V1_API_BASE_URL (src/constants.ts). -/
def V1_API_BASE_URL : String := API_BASE_URL ++ "/v1"

/-- ENTERPRISE_V1_API_BASE_URL (src/constants.ts). -/
def ENTERPRISE_V1_API_BASE_URL : String := ENTERPRISE_BASE_URL ++ "/v1"

/-- V2_API_BASE_URL (src/constants.ts). -/
def V2_API_BASE_URL : String := API_BASE_URL ++ "/v2"

/-- ENTERPRISE_V2_API_BASE_URL (src/constants.ts). -/
def ENTERPRISE_V2_API_BASE_URL : String := ENTERPRISE_BASE_URL ++ "/v2"

/-- The API_VERSION enum (src/constants.ts). -/
inductive API_VERSION where
  | V1
  | V2
deriving DecidableEq, Repr

/-! ## Error taxonomy (src/classes/errors.ts)

Each concrete error class of the source becomes one constructor tag; the
payload shared by the remote-reported errors (the object the dispatcher
builds before throwing) is carried separately. -/

/-- One tag per error class thrown by the request pipeline
(src/classes/errors.ts). The httpRequest tag is the generic base
HTTPRequestError used as fall-back. -/
inductive ErrorKind where
  | invalidMethod
  | parameterRequired
  | failedTypeValidation
  | invalidOption
  | maxLengthExceeded
  | minLengthNotReached
  | lengthMismatch
  | duplicateEntry
  | loginRequired
  | tokenRegenerationRequired
  | badSecret
  | badToken
  | expiredToken
  | noGrant
  | notFound
  | invalidResource
  | invalidBucket
  | rateLimit
  | unexpected
  | timeout
  | systemUnavailable
  | httpRequest
  | missingServerApiId
  | libraryParsing
deriving DecidableEq, Repr

/-- A minimal JSON value, sufficient for the parsed error bodies the
dispatcher inspects. -/
inductive Json where
  | str (s : String)
  | num (n : Int)
  | bool (b : Bool)
  | null
  | arr (elems : List Json)
  | obj (fields : List (String × Json))

/-- Looks a key up in a JSON object (JavaScript property access). -/
def Json.lookupField : Json → String → Option Json
  | Json.obj fields, key => fields.lookup key
  | _, _ => none

/-- The payload the dispatcher packs into every typed error before
throwing (the errorBody literal in RequestClient.errorHandler): status
code, request URL, request method and the parsed response body (none
when the body was unparseable). -/
structure ErrorBody where
  statusCode : Nat
  url : String
  method : String
  body : Option Json

/-- A thrown request-pipeline error: its class tag plus the payload it
carries. -/
structure CFError where
  kind : ErrorKind
  payload : ErrorBody

/-! ## Error mapping (RequestClient.errorHandler, src/classes/requests.ts)

The current revision of the handler: it extracts the slug from the
parsed body (safeError), switches on status then slug, and falls back to
the generic HTTPRequestError, with one exception, the 404 case, whose
switch is followed by an unconditional NotFoundError throw. -/

/-- Extraction of the safe error slug from the parsed body, translated
from the guard chain in errorHandler: the body must be a parsed object
whose error field is a string. -/
def safeErrorSlug (body : Option Json) : Option String :=
  match body with
  | some j =>
    match j.lookupField "error" with
    | some (Json.str s) => some s
    | _ => none
  | none => none

/-- RequestClient.errorHandler as a pure function from the failed
request description, the response status and the parsed response body
(none when parsing threw) to the typed error it throws. Translated
case-for-case from the status/slug switch of the current revision. -/
def errorHandler (url method : String) (status : Nat) (body : Option Json) : CFError :=
  let safeError := safeErrorSlug body
  let errorBody : ErrorBody := ⟨status, url, method, body⟩
  if status = 400 then
    match safeError with
    | some "invalid-method" => ⟨ErrorKind.invalidMethod, errorBody⟩
    | some "parameter-required" => ⟨ErrorKind.parameterRequired, errorBody⟩
    | some "failed-type-validation" => ⟨ErrorKind.failedTypeValidation, errorBody⟩
    | some "invalid-option" => ⟨ErrorKind.invalidOption, errorBody⟩
    | some "max-length-exceeded" => ⟨ErrorKind.maxLengthExceeded, errorBody⟩
    | some "min-length-too-small" => ⟨ErrorKind.minLengthNotReached, errorBody⟩
    | some "length-missmatch" => ⟨ErrorKind.lengthMismatch, errorBody⟩
    | some "duplicate" => ⟨ErrorKind.duplicateEntry, errorBody⟩
    | _ => ⟨ErrorKind.httpRequest, errorBody⟩
  else if status = 401 then
    match safeError with
    | some "login-required" => ⟨ErrorKind.loginRequired, errorBody⟩
    | _ => ⟨ErrorKind.httpRequest, errorBody⟩
  else if status = 403 then
    match safeError with
    | some "token-regeneration-required" => ⟨ErrorKind.tokenRegenerationRequired, errorBody⟩
    | some "bad-secret" => ⟨ErrorKind.badSecret, errorBody⟩
    | some "bad-token" => ⟨ErrorKind.badToken, errorBody⟩
    | some "expired-token" => ⟨ErrorKind.expiredToken, errorBody⟩
    | some "no-grant" => ⟨ErrorKind.noGrant, errorBody⟩
    | _ => ⟨ErrorKind.httpRequest, errorBody⟩
  else if status = 404 then
    match safeError with
    | some "not-found" => ⟨ErrorKind.notFound, errorBody⟩
    | some "invalid-resource" => ⟨ErrorKind.invalidResource, errorBody⟩
    | some "invalid-bucket" => ⟨ErrorKind.invalidBucket, errorBody⟩
    | _ => ⟨ErrorKind.notFound, errorBody⟩
  else if status = 429 then
    ⟨ErrorKind.rateLimit, errorBody⟩
  else if status = 500 then
    match safeError with
    | some "unexpected" => ⟨ErrorKind.unexpected, errorBody⟩
    | some "timeout" => ⟨ErrorKind.timeout, errorBody⟩
    | some "system-unavailable" => ⟨ErrorKind.systemUnavailable, errorBody⟩
    | _ => ⟨ErrorKind.httpRequest, errorBody⟩
  else
    ⟨ErrorKind.httpRequest, errorBody⟩

/-- A synthetic response body carrying exactly the given error slug, the
shape the specification feeds to the mapping routine. -/
def slugBody (slug : String) : Option Json :=
  some (Json.obj [("error", Json.str slug)])

/-! ## Authentication state (src/classes/auth.ts)

The mutable fields of the Authentication class. Timestamps are epoch
milliseconds; a JavaScript null is an Option none. -/

/-- The field state of one Authentication instance. -/
structure AuthState where
  userAgent : String
  applicationId : String
  applicationSecret : String
  serverApiId : Option String
  enterpriseToken : Option String
  issuedAt : Option Nat
  expiresAt : Option Nat
  currentlyRefreshing : Bool
  authenticated : Bool
  authenticationToken : Option String
deriving DecidableEq, Repr

/-- JavaScript truthiness of an optional string: null and undefined are
falsy, the empty string is falsy, every other string is truthy. This is
the semantics of both the bare conditional (if (serverApiId)) and the
optional-chain length test (enterpriseToken?.length) in the source. -/
def truthyStr (o : Option String) : Bool :=
  match o with
  | some s => !s.isEmpty
  | none => false

/-- The state built by the Authentication constructor: credentials are
copied, the token state starts empty, no refresh is in flight. -/
def initialAuthState (userAgent applicationId applicationSecret : String)
    (serverApiId enterpriseToken : Option String) : AuthState :=
  { userAgent := userAgent
    applicationId := applicationId
    applicationSecret := applicationSecret
    serverApiId := serverApiId
    enterpriseToken := enterpriseToken
    issuedAt := none
    expiresAt := none
    currentlyRefreshing := false
    authenticated := false
    authenticationToken := none }

/-- The template-literal rendering of the stored bearer token: a null
token interpolates as the string null, exactly as the source's
Bearer template string would. -/
def bearerValue (a : AuthState) : String :=
  "Bearer " ++ (match a.authenticationToken with
    | some t => t
    | none => "null")

/-- Authentication.getHeaders. With isAuthenticating true it never
consults the token state; with isAuthenticating false it throws
LoginRequiredError unless authenticated, then returns the bearer header
plus the enterprise header when one is configured. Translated from the
current revision of src/classes/auth.ts. -/
def getHeaders (a : AuthState) (isAuthenticating : Bool) :
    Except ErrorKind (List (String × String)) :=
  if isAuthenticating then
    if truthyStr a.enterpriseToken then
      Except.ok [("X-Enterprise-Access-Token", a.enterpriseToken.getD "")]
    else
      Except.ok []
  else if !a.authenticated then
    Except.error ErrorKind.loginRequired
  else
    Except.ok ([("Authorization", bearerValue a)] ++
      (if truthyStr a.enterpriseToken then
        [("X-Enterprise-Access-Token", a.enterpriseToken.getD "")]
      else []))

/-- Authentication.isExpired: true when expiresAt is unset or strictly
in the past. -/
def isExpired (a : AuthState) (now : Nat) : Bool :=
  match a.expiresAt with
  | none => true
  | some e => e < now

/-- Authentication.shouldRefresh: true when expired, when either
timestamp is unset, or when the remaining validity is below the fixed
buffer. -/
def shouldRefresh (a : AuthState) (now : Nat) : Bool :=
  if isExpired a now then
    true
  else if a.issuedAt.isNone || a.expiresAt.isNone then
    true
  else
    decide ((a.expiresAt.getD 0) - now < AUTHENTICATION_TOKEN_VALIDITY_BUFFER)

/-- The result shape of CFToolsClient.authenticate and of
Authentication.currentToken (the ClientAuthentication type). -/
structure ClientAuthentication where
  issuedAt : Option Nat
  expiresAt : Option Nat
  token : String
deriving DecidableEq, Repr

/-- Authentication.currentToken (current revision): throws
LoginRequiredError unless authenticated with a stored token, otherwise
returns the stored triple. -/
def currentToken (a : AuthState) : Except ErrorKind ClientAuthentication :=
  if !a.authenticated || a.authenticationToken.isNone then
    Except.error ErrorKind.loginRequired
  else
    Except.ok ⟨a.issuedAt, a.expiresAt, a.authenticationToken.getD ""⟩

/-- Authentication.resolveServerApiId: explicit argument first (under
JavaScript truthiness), then the configured default, then either the
typed MissingServerApiIdError or null depending on the require flag. -/
def resolveServerApiId (a : AuthState) (serverApiId : Option String) (require : Bool) :
    Except ErrorKind (Option String) :=
  if truthyStr serverApiId then
    Except.ok serverApiId
  else if truthyStr a.serverApiId then
    Except.ok a.serverApiId
  else if require then
    Except.error ErrorKind.missingServerApiId
  else
    Except.ok none

/-- Authentication.getAuthenticationBody: the body it returns. -/
def getAuthenticationBody (a : AuthState) : List (String × String) :=
  [("application_id", a.applicationId), ("secret", a.applicationSecret)]

/-- The debug log entry Authentication.getAuthenticationBody emits:
message plus the body object it just generated, passed verbatim to the
logger. -/
def getAuthenticationBodyLog (a : AuthState) : String × List (String × String) :=
  ("Generated authentication body", getAuthenticationBody a)

/-- The wire response of the v1 auth/register endpoint, as read by
CFToolsClient.authenticate: an optional validity in seconds and the
token string. -/
structure AuthResponse where
  valid_for : Option Nat
  token : String
deriving DecidableEq, Repr

/-- The resolvedValidFor computation of CFToolsClient.authenticate:
a truthy valid_for (present and nonzero) is scaled from seconds to
milliseconds, otherwise the refresh-interval constant is used. -/
def resolvedValidFor (vf : Option Nat) : Nat :=
  match vf with
  | some v => if v ≠ 0 then v * MS_IN_ONE_S else AUTHENTICATION_TOKEN_REFRESH_INTERVAL
  | none => AUTHENTICATION_TOKEN_REFRESH_INTERVAL

/-- CFToolsClient.authenticate as a state transformer: when the token
does not need refreshing it returns the stored token without a network
call, otherwise it performs the register round-trip (the stub response
resp), derives issuedAt and expiresAt, stores everything into the
authentication provider and reports that a network call happened. -/
def clientAuthenticate (now : Nat) (resp : AuthResponse) (a : AuthState) :
    Except ErrorKind (AuthState × ClientAuthentication × Bool) :=
  if shouldRefresh a now = false then
    match currentToken a with
    | Except.ok ca => Except.ok (a, ca, false)
    | Except.error e => Except.error e
  else
    let clientResponse : ClientAuthentication :=
      ⟨some now, some (now + resolvedValidFor resp.valid_for), resp.token⟩
    Except.ok
      ({ a with
          authenticated := true
          issuedAt := clientResponse.issuedAt
          expiresAt := clientResponse.expiresAt
          authenticationToken := some clientResponse.token },
        clientResponse, true)

/-- Authentication.performRefresh in the single-caller sequential
setting (no concurrent refresh in flight, so the wait loop of the
source is skipped): the shouldRefresh guard short-circuits, otherwise
the refreshing flag is raised, the owning client authenticates, the
returned values are stored and the flag cleared. The Bool reports
whether a network round-trip happened. -/
def performRefreshSeq (now : Nat) (resp : AuthResponse) (a : AuthState) :
    Except ErrorKind (AuthState × Bool) :=
  if !shouldRefresh a now then
    Except.ok (a, false)
  else
    let a1 := { a with currentlyRefreshing := true }
    match clientAuthenticate now resp a1 with
    | Except.error e => Except.error e
    | Except.ok (a2, newAuthentication, networkCall) =>
      Except.ok
        ({ a2 with
            issuedAt := newAuthentication.issuedAt
            expiresAt := newAuthentication.expiresAt
            authenticationToken := some newAuthentication.token
            currentlyRefreshing := false },
          networkCall)

/-! ## Request dispatcher (src/classes/requests.ts) -/

/-- One hexadecimal digit, upper case. -/
def hexDigit (n : Nat) : Char :=
  if n < 10 then Char.ofNat (48 + n) else Char.ofNat (55 + n)

/-- Percent-encoding of one character for the
application/x-www-form-urlencoded serialization; models the builtin
URLSearchParams.toString the source delegates to: unreserved characters
pass through, a space becomes a plus, everything else a percent escape
of its code point bytes. -/
def formEncodeChar (c : Char) : String :=
  if c.isAlphanum || c = '*' || c = '-' || c = '.' || c = '_' then
    String.singleton c
  else if c = ' ' then
    "+"
  else
    let n := c.toNat
    String.mk ['%', hexDigit ((n / 16) % 16), hexDigit (n % 16)]

/-- Form-url-encoding of a string, character by character. -/
def formEncode (s : String) : String :=
  String.join (s.toList.map formEncodeChar)

/-- The serialization of URLSearchParams built from a key/value record:
key=value pairs joined by ampersands. -/
def urlSearchParamsToString (params : List (String × String)) : String :=
  String.intercalate "&" (params.map (fun p => formEncode p.1 ++ "=" ++ formEncode p.2))

/-- The query-string suffix apiUrl appends: empty without params, a
question mark plus the serialized params otherwise. -/
def queryPart (params : Option (List (String × String))) : String :=
  match params with
  | some ps => "?" ++ urlSearchParamsToString ps
  | none => ""

/-- RequestClient.apiUrl: the base URL is selected by the enterprise
token's truthiness and the version, then the path and optional query
string are appended. The first argument is the authentication
provider's enterpriseToken field. -/
def apiUrl (enterpriseToken : Option String) (version : API_VERSION) (path : String)
    (params : Option (List (String × String))) : String :=
  let baseUrl :=
    if truthyStr enterpriseToken then
      if version = API_VERSION.V1 then ENTERPRISE_V1_API_BASE_URL else ENTERPRISE_V2_API_BASE_URL
    else
      if version = API_VERSION.V1 then V1_API_BASE_URL else V2_API_BASE_URL
  baseUrl ++ path ++ queryPart params

/-! ### JavaScript object operations

Plain objects keyed by strings are modelled as key/value lists; property
assignment overwrites the existing entry or appends a new one, spread
merges right over left, the in operator tests key presence and delete
removes a key. -/

/-- Property assignment on an object: overwrite the value at an
existing key, else append the pair. -/
def objSet {α : Type} (m : List (String × α)) (k : String) (v : α) : List (String × α) :=
  if m.any (fun p => p.1 = k) then
    m.map (fun p => if p.1 = k then (k, v) else p)
  else
    m ++ [(k, v)]

/-- Spread merge of two objects, the second overriding the first. -/
def objSpread {α : Type} (m1 m2 : List (String × α)) : List (String × α) :=
  m2.foldl (fun acc p => objSet acc p.1 p.2) m1

/-- The in operator: key presence. -/
def objHas {α : Type} (m : List (String × α)) (k : String) : Bool :=
  m.any (fun p => p.1 = k)

/-- The delete operator: removes every entry at the key. -/
def objDelete {α : Type} (m : List (String × α)) (k : String) : List (String × α) :=
  m.filter (fun p => p.1 ≠ k)

/-- RequestClient.resolveHeaders: spreads the caller headers, then the
authentication headers, then the fixed User-Agent, and finally strips a
Referer entry when one is present (the remote service rejects that
header). Propagates the LoginRequiredError getHeaders can throw. -/
def resolveHeaders (a : AuthState) (headersInit : List (String × String))
    (isAuthenticating : Bool) : Except ErrorKind (List (String × String)) :=
  match getHeaders a isAuthenticating with
  | Except.error e => Except.error e
  | Except.ok authHeaders =>
    let headers := objSet (objSpread headersInit authHeaders) "User-Agent" a.userAgent
    if objHas headers "Referer" then
      Except.ok (objDelete headers "Referer")
    else
      Except.ok headers

/-- The header object RequestClient.resolveRequestOptions passes to the
debug logger: the resolved headers spread, with Authorization overridden
by a redaction literal and the enterprise header overridden by a
redaction literal when present and by undefined (none) otherwise. -/
def loggedHeadersRep (headers : List (String × String)) : List (String × Option String) :=
  objSet
    (objSet (headers.map (fun p => (p.1, some p.2))) "Authorization" (some "Bearer [REDACTED]"))
    "X-Enterprise-Access-Token"
    (if objHas headers "X-Enterprise-Access-Token" then some "[REDACTED]" else none)

/-! ## Operation-level step relation for the Authenticator

Each constructor is one public operation run to completion from the
caller's point of view (the accessors do not mutate state and need no
constructor; setRefreshing is the one mutating accessor). Time and the
stub network response may differ from step to step. -/

/-- One completed Authenticator operation, as a relation between the
instance's field states. -/
inductive AuthOpStep : AuthState → AuthState → Prop where
  | authenticateOp (now : Nat) (resp : AuthResponse) (a s : AuthState)
      (ca : ClientAuthentication) (b : Bool)
      (h : clientAuthenticate now resp a = Except.ok (s, ca, b)) :
      AuthOpStep a s
  | performRefreshOp (now : Nat) (resp : AuthResponse) (a s : AuthState) (b : Bool)
      (h : performRefreshSeq now resp a = Except.ok (s, b)) :
      AuthOpStep a s
  | setRefreshingOp (b : Bool) (a : AuthState) :
      AuthOpStep a { a with currentlyRefreshing := b }

/-- Reachability of an Authenticator state through any sequence of its
operations. -/
def AuthReachable (a s : AuthState) : Prop :=
  Relation.ReflTransGen AuthOpStep a s

/-! ## Concurrent refresh model

N client operations run performRefresh against one shared
Authentication instance under the cooperative single-threaded
scheduler: code between suspension points is atomic, and the suspension
points of the source are the poll ticks of the wait loop and the
network call. The background 23-hour timer fires outside the modelled
window and is omitted. Each task is a program counter into
performRefresh with the owning client's authenticate call inlined. -/

/-- The program counter of one task running performRefresh:
start (about to run the shouldRefresh and isRefreshing guards), waiting
(inside the poll loop for an in-flight refresh), auth (refreshing flag
raised, at the guard of the inlined client authenticate), net (network
round-trip of the register call in flight), store (authenticate
returned this value; about to write it back and clear the flag), failed
(an exception escaped), done (returned). -/
inductive TaskPc where
  | start
  | waiting
  | auth
  | net
  | store (ca : ClientAuthentication)
  | failed
  | done
deriving DecidableEq, Repr

/-- The shared system state: the one Authentication instance, the count
of token-acquisition network round-trips performed, and every task's
program counter. -/
structure SysState (n : Nat) where
  auth : AuthState
  networkCalls : Nat
  pcs : Fin n → TaskPc

/-- The initial system: a freshly constructed unauthenticated instance,
no network calls, every task about to enter performRefresh. -/
def initSys (n : Nat) (a0 : AuthState) : SysState n :=
  { auth := a0, networkCalls := 0, pcs := fun _ => TaskPc.start }

/-- One scheduler step of the concurrent model at the fixed time now
with the fixed stub register response resp. Each constructor is one
atomic segment of the source between suspension points. -/
inductive SysStep (now : Nat) (resp : AuthResponse) {n : Nat} :
    SysState n → SysState n → Prop where
  | startDone (s : SysState n) (i : Fin n)
      (hpc : s.pcs i = TaskPc.start)
      (hsr : shouldRefresh s.auth now = false) :
      SysStep now resp s { s with pcs := Function.update s.pcs i TaskPc.done }
  | startWait (s : SysState n) (i : Fin n)
      (hpc : s.pcs i = TaskPc.start)
      (hsr : shouldRefresh s.auth now = true)
      (href : s.auth.currentlyRefreshing = true) :
      SysStep now resp s { s with pcs := Function.update s.pcs i TaskPc.waiting }
  | startEnter (s : SysState n) (i : Fin n)
      (hpc : s.pcs i = TaskPc.start)
      (hsr : shouldRefresh s.auth now = true)
      (href : s.auth.currentlyRefreshing = false) :
      SysStep now resp s
        { s with
            auth := { s.auth with currentlyRefreshing := true }
            pcs := Function.update s.pcs i TaskPc.auth }
  | waitEnter (s : SysState n) (i : Fin n)
      (hpc : s.pcs i = TaskPc.waiting)
      (href : s.auth.currentlyRefreshing = false) :
      SysStep now resp s
        { s with
            auth := { s.auth with currentlyRefreshing := true }
            pcs := Function.update s.pcs i TaskPc.auth }
  | authShort (s : SysState n) (i : Fin n) (ca : ClientAuthentication)
      (hpc : s.pcs i = TaskPc.auth)
      (hsr : shouldRefresh s.auth now = false)
      (hct : currentToken s.auth = Except.ok ca) :
      SysStep now resp s { s with pcs := Function.update s.pcs i (TaskPc.store ca) }
  | authThrow (s : SysState n) (i : Fin n) (e : ErrorKind)
      (hpc : s.pcs i = TaskPc.auth)
      (hsr : shouldRefresh s.auth now = false)
      (hct : currentToken s.auth = Except.error e) :
      SysStep now resp s { s with pcs := Function.update s.pcs i TaskPc.failed }
  | authNet (s : SysState n) (i : Fin n)
      (hpc : s.pcs i = TaskPc.auth)
      (hsr : shouldRefresh s.auth now = true) :
      SysStep now resp s { s with pcs := Function.update s.pcs i TaskPc.net }
  | netComplete (s : SysState n) (i : Fin n)
      (hpc : s.pcs i = TaskPc.net) :
      SysStep now resp s
        { s with
            auth := { s.auth with
                authenticated := true
                issuedAt := some now
                expiresAt := some (now + resolvedValidFor resp.valid_for)
                authenticationToken := some resp.token }
            networkCalls := s.networkCalls + 1
            pcs := Function.update s.pcs i
              (TaskPc.store ⟨some now, some (now + resolvedValidFor resp.valid_for), resp.token⟩) }
  | storeDone (s : SysState n) (i : Fin n) (ca : ClientAuthentication)
      (hpc : s.pcs i = TaskPc.store ca) :
      SysStep now resp s
        { s with
            auth := { s.auth with
                issuedAt := ca.issuedAt
                expiresAt := ca.expiresAt
                authenticationToken := some ca.token
                currentlyRefreshing := false }
            pcs := Function.update s.pcs i TaskPc.done }

/-- Reachability in the concurrent model. -/
def SysReachable (now : Nat) (resp : AuthResponse) {n : Nat} (s t : SysState n) : Prop :=
  Relation.ReflTransGen (SysStep now resp) s t

/-- The program-counter region a task occupies while the refreshing
flag it raised is still up. -/
def inRegion (pc : TaskPc) : Prop :=
  pc = TaskPc.auth ∨ pc = TaskPc.net ∨ ∃ ca, pc = TaskPc.store ca

/-- The token triple every network completion produces in the frozen
scenario. -/
def freshCA (now : Nat) (resp : AuthResponse) : ClientAuthentication :=
  ⟨some now, some (now + resolvedValidFor resp.valid_for), resp.token⟩

/-- A token state without an expiry always wants a refresh. -/
theorem shouldRefresh_of_expiresAt_none (a : AuthState) (now : Nat)
    (h : a.expiresAt = none) : shouldRefresh a now = true := by
  simp [shouldRefresh, isExpired, h]

/-- A token whose remaining validity exceeds the buffer does not want a
refresh. -/
theorem shouldRefresh_of_fresh (a : AuthState) (now t0 v : Nat)
    (hbuf : AUTHENTICATION_TOKEN_VALIDITY_BUFFER < v)
    (hi : a.issuedAt = some t0) (he : a.expiresAt = some (now + v)) :
    shouldRefresh a now = false := by
  simp [shouldRefresh, isExpired, hi, he]
  omega

/-- The inductive invariant of the concurrent refresh model: at most
one token-acquisition call ever happens; before it the token state is
empty, after it the token state is exactly the acquired triple; the
refreshing flag is up exactly while some task is inside the guarded
segment, and that task is unique; a task suspended at the network call
implies the call has not happened yet; a store or done program counter
implies the call has happened; no task has failed. -/
def SysInv (now : Nat) (resp : AuthResponse) {n : Nat} (s : SysState n) : Prop :=
  s.networkCalls ≤ 1 ∧
  (s.networkCalls = 0 →
    s.auth.issuedAt = none ∧ s.auth.expiresAt = none ∧
    s.auth.authenticationToken = none ∧ s.auth.authenticated = false) ∧
  (s.networkCalls = 1 →
    s.auth.issuedAt = some now ∧
    s.auth.expiresAt = some (now + resolvedValidFor resp.valid_for) ∧
    s.auth.authenticationToken = some resp.token ∧ s.auth.authenticated = true) ∧
  (∀ i, inRegion (s.pcs i) → s.auth.currentlyRefreshing = true) ∧
  (∀ i j, inRegion (s.pcs i) → inRegion (s.pcs j) → i = j) ∧
  (∀ i, s.pcs i = TaskPc.net → s.networkCalls = 0) ∧
  (∀ i ca, s.pcs i = TaskPc.store ca → s.networkCalls = 1 ∧ ca = freshCA now resp) ∧
  (∀ i, s.pcs i = TaskPc.done → s.networkCalls = 1) ∧
  (∀ i, s.pcs i ≠ TaskPc.failed)

/-- When the shared token state does not want a refresh, the network
call has already happened. -/
theorem calls_one_of_not_refresh {now : Nat} {resp : AuthResponse} {n : Nat}
    {s : SysState n} (hInv : SysInv now resp s)
    (hsr : shouldRefresh s.auth now = false) : s.networkCalls = 1 := by
  obtain ⟨h1, h2, -⟩ := hInv
  rcases Nat.lt_or_ge s.networkCalls 1 with h | h
  · exfalso
    have h0 : s.networkCalls = 0 := by omega
    have he := (h2 h0).2.1
    rw [shouldRefresh_of_expiresAt_none s.auth now he] at hsr
    exact absurd hsr (by simp)
  · omega

/-- When the shared token state still wants a refresh (and the stub
validity exceeds the buffer), the network call has not happened yet. -/
theorem calls_zero_of_refresh {now : Nat} {resp : AuthResponse} {n : Nat}
    {s : SysState n}
    (hbuf : AUTHENTICATION_TOKEN_VALIDITY_BUFFER < resolvedValidFor resp.valid_for)
    (hInv : SysInv now resp s)
    (hsr : shouldRefresh s.auth now = true) : s.networkCalls = 0 := by
  obtain ⟨h1, h2, h3, -⟩ := hInv
  rcases Nat.lt_or_ge s.networkCalls 1 with h | h
  · omega
  · exfalso
    have hone : s.networkCalls = 1 := by omega
    obtain ⟨hi, he, -, -⟩ := h3 hone
    rw [shouldRefresh_of_fresh s.auth now now (resolvedValidFor resp.valid_for) hbuf hi he] at hsr
    exact absurd hsr (by simp)

/-- Case split for a program counter read through an update. -/
theorem update_pc_elim {n : Nat} {pcs : Fin n → TaskPc} {i j : Fin n} {v w : TaskPc}
    (h : Function.update pcs i v j = w) : (j = i ∧ v = w) ∨ (j ≠ i ∧ pcs j = w) := by
  by_cases hji : j = i
  · subst hji
    rw [Function.update_same] at h
    exact Or.inl ⟨rfl, h⟩
  · rw [Function.update_noteq hji] at h
    exact Or.inr ⟨hji, h⟩

/-- Case split for region membership read through an update. -/
theorem update_region_elim {n : Nat} {pcs : Fin n → TaskPc} {i j : Fin n} {v : TaskPc}
    (h : inRegion (Function.update pcs i v j)) :
    (j = i ∧ inRegion v) ∨ (j ≠ i ∧ inRegion (pcs j)) := by
  by_cases hji : j = i
  · subst hji
    rw [Function.update_same] at h
    exact Or.inl ⟨rfl, h⟩
  · rw [Function.update_noteq hji] at h
    exact Or.inr ⟨hji, h⟩

/-- Every scheduler step preserves the concurrent-model invariant. -/
theorem sysInv_step {now : Nat} {resp : AuthResponse} {n : Nat} {s t : SysState n}
    (hbuf : AUTHENTICATION_TOKEN_VALIDITY_BUFFER < resolvedValidFor resp.valid_for)
    (hInv : SysInv now resp s) (hstep : SysStep now resp s t) : SysInv now resp t := by
  obtain ⟨h1, h2, h3, h4, h5, h6, h7, h8, h9⟩ := hInv
  cases hstep with
  | startDone i hpc hsr =>
    have hc1 : s.networkCalls = 1 :=
      calls_one_of_not_refresh ⟨h1, h2, h3, h4, h5, h6, h7, h8, h9⟩ hsr
    refine ⟨h1, h2, h3, ?_, ?_, ?_, ?_, ?_, ?_⟩
    · intro j hj
      rcases update_region_elim hj with ⟨-, hv⟩ | ⟨-, hv⟩
      · simp [inRegion] at hv
      · exact h4 j hv
    · intro j k hj hk
      rcases update_region_elim hj with ⟨-, hv⟩ | ⟨-, hj'⟩
      · simp [inRegion] at hv
      rcases update_region_elim hk with ⟨-, hv⟩ | ⟨-, hk'⟩
      · simp [inRegion] at hv
      exact h5 j k hj' hk'
    · intro j hj
      rcases update_pc_elim hj with ⟨-, hv⟩ | ⟨-, hj'⟩
      · exact absurd hv (by simp)
      · exact h6 j hj'
    · intro j ca hj
      rcases update_pc_elim hj with ⟨-, hv⟩ | ⟨-, hj'⟩
      · exact absurd hv (by simp)
      · exact h7 j ca hj'
    · intro j hj
      rcases update_pc_elim hj with ⟨-, -⟩ | ⟨-, hj'⟩
      · exact hc1
      · exact h8 j hj'
    · intro j hj
      rcases update_pc_elim hj with ⟨-, hv⟩ | ⟨-, hj'⟩
      · exact absurd hv (by simp)
      · exact h9 j hj'
  | startWait i hpc hsr href =>
    refine ⟨h1, h2, h3, ?_, ?_, ?_, ?_, ?_, ?_⟩
    · intro j hj
      rcases update_region_elim hj with ⟨-, hv⟩ | ⟨-, hv⟩
      · simp [inRegion] at hv
      · exact h4 j hv
    · intro j k hj hk
      rcases update_region_elim hj with ⟨-, hv⟩ | ⟨-, hj'⟩
      · simp [inRegion] at hv
      rcases update_region_elim hk with ⟨-, hv⟩ | ⟨-, hk'⟩
      · simp [inRegion] at hv
      exact h5 j k hj' hk'
    · intro j hj
      rcases update_pc_elim hj with ⟨-, hv⟩ | ⟨-, hj'⟩
      · exact absurd hv (by simp)
      · exact h6 j hj'
    · intro j ca hj
      rcases update_pc_elim hj with ⟨-, hv⟩ | ⟨-, hj'⟩
      · exact absurd hv (by simp)
      · exact h7 j ca hj'
    · intro j hj
      rcases update_pc_elim hj with ⟨-, hv⟩ | ⟨-, hj'⟩
      · exact absurd hv (by simp)
      · exact h8 j hj'
    · intro j hj
      rcases update_pc_elim hj with ⟨-, hv⟩ | ⟨-, hj'⟩
      · exact absurd hv (by simp)
      · exact h9 j hj'
  | startEnter i hpc hsr href =>
    refine ⟨h1, h2, h3, ?_, ?_, ?_, ?_, ?_, ?_⟩
    · intro j hj
      rfl
    · intro j k hj hk
      rcases update_region_elim hj with ⟨hji, -⟩ | ⟨-, hj'⟩
      · rcases update_region_elim hk with ⟨hki, -⟩ | ⟨-, hk'⟩
        · rw [hji, hki]
        · exact absurd (h4 k hk') (by simp [href])
      · exact absurd (h4 j hj') (by simp [href])
    · intro j hj
      rcases update_pc_elim hj with ⟨-, hv⟩ | ⟨-, hj'⟩
      · exact absurd hv (by simp)
      · exact absurd (h4 j (Or.inr (Or.inl hj'))) (by simp [href])
    · intro j ca hj
      rcases update_pc_elim hj with ⟨-, hv⟩ | ⟨-, hj'⟩
      · exact absurd hv (by simp)
      · exact absurd (h4 j (Or.inr (Or.inr ⟨ca, hj'⟩))) (by simp [href])
    · intro j hj
      rcases update_pc_elim hj with ⟨-, hv⟩ | ⟨-, hj'⟩
      · exact absurd hv (by simp)
      · exact h8 j hj'
    · intro j hj
      rcases update_pc_elim hj with ⟨-, hv⟩ | ⟨-, hj'⟩
      · exact absurd hv (by simp)
      · exact h9 j hj'
  | waitEnter i hpc href =>
    refine ⟨h1, h2, h3, ?_, ?_, ?_, ?_, ?_, ?_⟩
    · intro j hj
      rfl
    · intro j k hj hk
      rcases update_region_elim hj with ⟨hji, -⟩ | ⟨-, hj'⟩
      · rcases update_region_elim hk with ⟨hki, -⟩ | ⟨-, hk'⟩
        · rw [hji, hki]
        · exact absurd (h4 k hk') (by simp [href])
      · exact absurd (h4 j hj') (by simp [href])
    · intro j hj
      rcases update_pc_elim hj with ⟨-, hv⟩ | ⟨-, hj'⟩
      · exact absurd hv (by simp)
      · exact absurd (h4 j (Or.inr (Or.inl hj'))) (by simp [href])
    · intro j ca hj
      rcases update_pc_elim hj with ⟨-, hv⟩ | ⟨-, hj'⟩
      · exact absurd hv (by simp)
      · exact absurd (h4 j (Or.inr (Or.inr ⟨ca, hj'⟩))) (by simp [href])
    · intro j hj
      rcases update_pc_elim hj with ⟨-, hv⟩ | ⟨-, hj'⟩
      · exact absurd hv (by simp)
      · exact h8 j hj'
    · intro j hj
      rcases update_pc_elim hj with ⟨-, hv⟩ | ⟨-, hj'⟩
      · exact absurd hv (by simp)
      · exact h9 j hj'
  | authShort i ca hpc hsr hct =>
    have hc1 : s.networkCalls = 1 :=
      calls_one_of_not_refresh ⟨h1, h2, h3, h4, h5, h6, h7, h8, h9⟩ hsr
    obtain ⟨hi3, he3, ht3, ha3⟩ := h3 hc1
    have hca : ca = freshCA now resp := by
      rw [currentToken, ha3, ht3] at hct
      simp at hct
      rw [freshCA, ← hct, hi3, he3]
    refine ⟨h1, h2, h3, ?_, ?_, ?_, ?_, ?_, ?_⟩
    · intro j hj
      rcases update_region_elim hj with ⟨-, -⟩ | ⟨-, hv⟩
      · exact h4 i (Or.inl hpc)
      · exact h4 j hv
    · intro j k hj hk
      rcases update_region_elim hj with ⟨hji, -⟩ | ⟨hji, hj'⟩
      · rcases update_region_elim hk with ⟨hki, -⟩ | ⟨hki, hk'⟩
        · rw [hji, hki]
        · rw [hji]
          exact (h5 k i hk' (Or.inl hpc)).symm
      · rcases update_region_elim hk with ⟨hki, -⟩ | ⟨hki, hk'⟩
        · rw [hki]
          exact h5 j i hj' (Or.inl hpc)
        · exact h5 j k hj' hk'
    · intro j hj
      rcases update_pc_elim hj with ⟨-, hv⟩ | ⟨-, hj'⟩
      · exact absurd hv (by simp)
      · exact h6 j hj'
    · intro j ca2 hj
      rcases update_pc_elim hj with ⟨-, hv⟩ | ⟨-, hj'⟩
      · have : ca2 = ca := by
          cases hv
          rfl
        exact ⟨hc1, this.trans hca⟩
      · exact h7 j ca2 hj'
    · intro j hj
      rcases update_pc_elim hj with ⟨-, hv⟩ | ⟨-, hj'⟩
      · exact absurd hv (by simp)
      · exact h8 j hj'
    · intro j hj
      rcases update_pc_elim hj with ⟨-, hv⟩ | ⟨-, hj'⟩
      · exact absurd hv (by simp)
      · exact h9 j hj'
  | authThrow i e hpc hsr hct =>
    exfalso
    have hc1 : s.networkCalls = 1 :=
      calls_one_of_not_refresh ⟨h1, h2, h3, h4, h5, h6, h7, h8, h9⟩ hsr
    obtain ⟨-, -, ht3, ha3⟩ := h3 hc1
    rw [currentToken, ha3, ht3] at hct
    simp at hct
  | authNet i hpc hsr =>
    have hc0 : s.networkCalls = 0 :=
      calls_zero_of_refresh hbuf ⟨h1, h2, h3, h4, h5, h6, h7, h8, h9⟩ hsr
    refine ⟨h1, h2, h3, ?_, ?_, ?_, ?_, ?_, ?_⟩
    · intro j hj
      rcases update_region_elim hj with ⟨-, -⟩ | ⟨-, hv⟩
      · exact h4 i (Or.inl hpc)
      · exact h4 j hv
    · intro j k hj hk
      rcases update_region_elim hj with ⟨hji, -⟩ | ⟨hji, hj'⟩
      · rcases update_region_elim hk with ⟨hki, -⟩ | ⟨hki, hk'⟩
        · rw [hji, hki]
        · rw [hji]
          exact (h5 k i hk' (Or.inl hpc)).symm
      · rcases update_region_elim hk with ⟨hki, -⟩ | ⟨hki, hk'⟩
        · rw [hki]
          exact h5 j i hj' (Or.inl hpc)
        · exact h5 j k hj' hk'
    · intro j hj
      exact hc0
    · intro j ca hj
      rcases update_pc_elim hj with ⟨-, hv⟩ | ⟨-, hj'⟩
      · exact absurd hv (by simp)
      · exact absurd hc0 (by simp [(h7 j ca hj').1])
    · intro j hj
      rcases update_pc_elim hj with ⟨-, hv⟩ | ⟨-, hj'⟩
      · exact absurd hv (by simp)
      · exact absurd hc0 (by simp [h8 j hj'])
    · intro j hj
      rcases update_pc_elim hj with ⟨-, hv⟩ | ⟨-, hj'⟩
      · exact absurd hv (by simp)
      · exact h9 j hj'
  | netComplete i hpc =>
    have hc0 : s.networkCalls = 0 := h6 i hpc
    refine ⟨?_, ?_, ?_, ?_, ?_, ?_, ?_, ?_, ?_⟩
    · show s.networkCalls + 1 ≤ 1
      omega
    · intro h0
      exact absurd h0 (by show s.networkCalls + 1 ≠ 0; omega)
    · intro _
      exact ⟨rfl, rfl, rfl, rfl⟩
    · intro j hj
      exact h4 i (Or.inr (Or.inl hpc))
    · intro j k hj hk
      rcases update_region_elim hj with ⟨hji, -⟩ | ⟨hji, hj'⟩
      · rcases update_region_elim hk with ⟨hki, -⟩ | ⟨hki, hk'⟩
        · rw [hji, hki]
        · rw [hji]
          exact (h5 k i hk' (Or.inr (Or.inl hpc))).symm
      · rcases update_region_elim hk with ⟨hki, -⟩ | ⟨hki, hk'⟩
        · rw [hki]
          exact h5 j i hj' (Or.inr (Or.inl hpc))
        · exact h5 j k hj' hk'
    · intro j hj
      rcases update_pc_elim hj with ⟨-, hv⟩ | ⟨hji, hj'⟩
      · exact absurd hv (by simp)
      · exact absurd (h5 j i (Or.inr (Or.inl hj')) (Or.inr (Or.inl hpc))) hji
    · intro j ca hj
      rcases update_pc_elim hj with ⟨-, hv⟩ | ⟨hji, hj'⟩
      · refine ⟨by show s.networkCalls + 1 = 1; omega, ?_⟩
        cases hv
        rfl
      · exact absurd (h5 j i (Or.inr (Or.inr ⟨ca, hj'⟩)) (Or.inr (Or.inl hpc))) hji
    · intro j hj
      rcases update_pc_elim hj with ⟨-, hv⟩ | ⟨-, hj'⟩
      · exact absurd hv (by simp)
      · exact absurd hc0 (by simp [h8 j hj'])
    · intro j hj
      rcases update_pc_elim hj with ⟨-, hv⟩ | ⟨-, hj'⟩
      · exact absurd hv (by simp)
      · exact h9 j hj'
  | storeDone i ca hpc =>
    obtain ⟨hc1, hca⟩ := h7 i ca hpc
    obtain ⟨hi3, he3, ht3, ha3⟩ := h3 hc1
    have hreg : inRegion (s.pcs i) := Or.inr (Or.inr ⟨ca, hpc⟩)
    refine ⟨h1, ?_, ?_, ?_, ?_, ?_, ?_, ?_, ?_⟩
    · intro h0
      exact absurd h0 (by show s.networkCalls ≠ 0; omega)
    · intro _
      rw [hca]
      exact ⟨rfl, rfl, rfl, ha3⟩
    · intro j hj
      rcases update_region_elim hj with ⟨-, hv⟩ | ⟨hji, hj'⟩
      · simp [inRegion] at hv
      · exact absurd (h5 j i hj' hreg) hji
    · intro j k hj hk
      rcases update_region_elim hj with ⟨-, hv⟩ | ⟨hji, hj'⟩
      · simp [inRegion] at hv
      rcases update_region_elim hk with ⟨-, hv⟩ | ⟨hki, hk'⟩
      · simp [inRegion] at hv
      exact h5 j k hj' hk'
    · intro j hj
      rcases update_pc_elim hj with ⟨-, hv⟩ | ⟨hji, hj'⟩
      · exact absurd hv (by simp)
      · exact absurd (h5 j i (Or.inr (Or.inl hj')) hreg) hji
    · intro j ca2 hj
      rcases update_pc_elim hj with ⟨-, hv⟩ | ⟨hji, hj'⟩
      · exact absurd hv (by simp)
      · exact h7 j ca2 hj'
    · intro j hj
      rcases update_pc_elim hj with ⟨-, -⟩ | ⟨-, hj'⟩
      · exact hc1
      · exact h8 j hj'
    · intro j hj
      rcases update_pc_elim hj with ⟨-, hv⟩ | ⟨-, hj'⟩
      · exact absurd hv (by simp)
      · exact h9 j hj'

/-- The invariant holds in the initial system built over a freshly
constructed Authentication instance. -/
theorem sysInv_init (now : Nat) (resp : AuthResponse) (n : Nat)
    (ua aid asec : String) (sid ent : Option String) :
    SysInv now resp (initSys n (initialAuthState ua aid asec sid ent)) := by
  refine ⟨by simp [initSys], ?_, ?_, ?_, ?_, ?_, ?_, ?_, ?_⟩
  · intro _
    exact ⟨rfl, rfl, rfl, rfl⟩
  · intro h0
    exact absurd h0 (by simp [initSys])
  · intro i hi
    simp [initSys, inRegion] at hi
  · intro i j hi _
    simp [initSys, inRegion] at hi
  · intro i hi
    simp [initSys] at hi
  · intro i ca hi
    simp [initSys] at hi
  · intro i hi
    simp [initSys] at hi
  · intro i hi
    simp [initSys] at hi

/-- The invariant holds in every reachable system state. -/
theorem sysInv_reachable {now : Nat} {resp : AuthResponse} {n : Nat}
    {ua aid asec : String} {sid ent : Option String} {s : SysState n}
    (hbuf : AUTHENTICATION_TOKEN_VALIDITY_BUFFER < resolvedValidFor resp.valid_for)
    (hreach : SysReachable now resp (initSys n (initialAuthState ua aid asec sid ent)) s) :
    SysInv now resp s := by
  induction hreach with
  | refl => exact sysInv_init now resp n ua aid asec sid ent
  | tail _ hstep ih => exact sysInv_step hbuf ih hstep

/-! ## Claim theorems -/

/-- C3: getHeaders with isAuthenticating true returns exactly the
enterprise header when an enterprise token is configured and the empty
map otherwise, independently of the token state; with isAuthenticating
false it fails with the typed LoginRequired error whenever the
authenticated flag is down, and otherwise returns the bearer
Authorization header plus the enterprise header when configured. -/
theorem getHeaders_contract (a : AuthState) :
    (getHeaders a true =
      Except.ok (if truthyStr a.enterpriseToken then
        [("X-Enterprise-Access-Token", a.enterpriseToken.getD "")] else [])) ∧
    (a.authenticated = false → getHeaders a false = Except.error ErrorKind.loginRequired) ∧
    (a.authenticated = true → getHeaders a false =
      Except.ok ([("Authorization", bearerValue a)] ++
        (if truthyStr a.enterpriseToken then
          [("X-Enterprise-Access-Token", a.enterpriseToken.getD "")] else []))) := by
  refine ⟨?_, ?_, ?_⟩
  · by_cases h : truthyStr a.enterpriseToken = true
    · simp [getHeaders, h]
    · simp at h
      simp [getHeaders, h]
  · intro h
    simp [getHeaders, h]
  · intro h
    by_cases he : truthyStr a.enterpriseToken = true
    · simp [getHeaders, h, he]
    · simp at he
      simp [getHeaders, h, he]

/-- C3 witness: a freshly constructed instance without an enterprise
token gives the empty map while authenticating and the typed
LoginRequired failure otherwise. -/
theorem getHeaders_contract_witness :
    getHeaders (initialAuthState "ua" "app" "sec" none none) true = Except.ok [] ∧
    getHeaders (initialAuthState "ua" "app" "sec" none none) false =
      Except.error ErrorKind.loginRequired := by
  have h := getHeaders_contract (initialAuthState "ua" "app" "sec" none none)
  exact ⟨h.1, h.2.1 rfl⟩

/-- C7 counterexample: an explicitly provided empty-string server API id
is not returned; the configured default wins instead, because the source
tests the argument with JavaScript truthiness. -/
theorem resolveServerApiId_counterexample :
    resolveServerApiId (initialAuthState "ua" "app" "sec" (some "default-id") none)
        (some "") false = Except.ok (some "default-id") ∧
    (some "default-id" : Option String) ≠ some "" := by
  exact ⟨rfl, by decide⟩

/-- C7 amended: a non-empty explicit argument is returned; an empty or
absent explicit argument falls through to a non-empty configured
default; otherwise the call fails with the typed MissingServerApiId
error when required and resolves to null when not. -/
theorem resolveServerApiId_amended (a : AuthState) (explicit : Option String) (require : Bool) :
    (truthyStr explicit = true →
      resolveServerApiId a explicit require = Except.ok explicit) ∧
    (truthyStr explicit = false → truthyStr a.serverApiId = true →
      resolveServerApiId a explicit require = Except.ok a.serverApiId) ∧
    (truthyStr explicit = false → truthyStr a.serverApiId = false → require = true →
      resolveServerApiId a explicit require = Except.error ErrorKind.missingServerApiId) ∧
    (truthyStr explicit = false → truthyStr a.serverApiId = false → require = false →
      resolveServerApiId a explicit require = Except.ok none) := by
  refine ⟨?_, ?_, ?_, ?_⟩
  · intro h
    simp [resolveServerApiId, h]
  · intro h1 h2
    simp [resolveServerApiId, h1, h2]
  · intro h1 h2 h3
    simp [resolveServerApiId, h1, h2, h3]
  · intro h1 h2 h3
    simp [resolveServerApiId, h1, h2, h3]

/-- C7 witness: the four branches of the amended contract at concrete
inputs. -/
theorem resolveServerApiId_amended_witness :
    resolveServerApiId (initialAuthState "u" "a" "s" none none) (some "explicit-id") true =
      Except.ok (some "explicit-id") ∧
    resolveServerApiId (initialAuthState "u" "a" "s" (some "default-id") none) none true =
      Except.ok (some "default-id") ∧
    resolveServerApiId (initialAuthState "u" "a" "s" none none) none true =
      Except.error ErrorKind.missingServerApiId ∧
    resolveServerApiId (initialAuthState "u" "a" "s" none none) none false =
      Except.ok none := by
  refine ⟨?_, ?_, ?_, ?_⟩
  · exact (resolveServerApiId_amended _ (some "explicit-id") true).1 (by decide)
  · exact (resolveServerApiId_amended _ none true).2.1 (by decide) (by decide)
  · exact (resolveServerApiId_amended _ none true).2.2.1 (by decide) (by decide) rfl
  · exact (resolveServerApiId_amended _ none false).2.2.2 (by decide) (by decide) rfl

/-- C8: apiUrl concatenates one of the four fixed base URLs, chosen by
the enterprise-token truthiness and the version, with the path and
query string; the path-and-query suffix is identical across all four
selections, so the two standard URLs differ only in the version segment
and configuring an enterprise token changes only the host. -/
theorem apiUrl_contract (path : String) (params : Option (List (String × String)))
    (tok : String) (htok : tok ≠ "") :
    apiUrl none API_VERSION.V1 path params =
      "https://data.cftools.cloud/v1" ++ (path ++ queryPart params) ∧
    apiUrl none API_VERSION.V2 path params =
      "https://data.cftools.cloud/v2" ++ (path ++ queryPart params) ∧
    apiUrl (some tok) API_VERSION.V1 path params =
      "https://epr-data.cftools.cloud/v1" ++ (path ++ queryPart params) ∧
    apiUrl (some tok) API_VERSION.V2 path params =
      "https://epr-data.cftools.cloud/v2" ++ (path ++ queryPart params) := by
  have he : truthyStr (some tok) = true := by
    simp only [truthyStr, Bool.not_eq_true', Bool.eq_false_iff, ne_eq, String.isEmpty_iff]
    exact htok
  refine ⟨?_, ?_, ?_, ?_⟩
  · show V1_API_BASE_URL ++ path ++ queryPart params = _
    rw [String.append_assoc]
    rfl
  · show V2_API_BASE_URL ++ path ++ queryPart params = _
    rw [String.append_assoc]
    rfl
  · show (if truthyStr (some tok) = true then _ else _) ++ path ++ queryPart params = _
    rw [he]
    show ENTERPRISE_V1_API_BASE_URL ++ path ++ queryPart params = _
    rw [String.append_assoc]
    rfl
  · show (if truthyStr (some tok) = true then _ else _) ++ path ++ queryPart params = _
    rw [he]
    show ENTERPRISE_V2_API_BASE_URL ++ path ++ queryPart params = _
    rw [String.append_assoc]
    rfl

/-- C8 witness: the four resolved URLs at a concrete path and query. -/
theorem apiUrl_contract_witness :
    apiUrl none API_VERSION.V1 "/x" none = "https://data.cftools.cloud/v1/x" ∧
    apiUrl none API_VERSION.V2 "/x" none = "https://data.cftools.cloud/v2/x" ∧
    apiUrl (some "ent-token") API_VERSION.V1 "/x" none = "https://epr-data.cftools.cloud/v1/x" ∧
    apiUrl (some "ent-token") API_VERSION.V2 "/x" none = "https://epr-data.cftools.cloud/v2/x" := by
  have h := apiUrl_contract "/x" none "ent-token" (by decide)
  exact h

/-- C9: the header map resolveHeaders returns never contains a Referer
entry, whatever the caller-supplied headers were. -/
theorem resolveHeaders_no_referer (a : AuthState) (headersInit : List (String × String))
    (isAuthenticating : Bool) (m : List (String × String))
    (h : resolveHeaders a headersInit isAuthenticating = Except.ok m) :
    ∀ p ∈ m, p.1 ≠ "Referer" := by
  unfold resolveHeaders at h
  split at h
  · exact absurd h (by simp)
  · rename_i authHeaders hgh
    dsimp only at h
    split at h
    · rename_i hhas
      obtain rfl : objDelete (objSet (objSpread headersInit authHeaders) "User-Agent" a.userAgent)
          "Referer" = m := by
        injection h
      intro p hp
      rw [objDelete, List.mem_filter] at hp
      simpa using hp.2
    · rename_i hhas
      obtain rfl : objSet (objSpread headersInit authHeaders) "User-Agent" a.userAgent = m := by
        injection h
      intro p hp href
      apply hhas
      rw [objHas, List.any_eq_true]
      exact ⟨p, hp, by simp [href]⟩

/-- C9 witness: a caller-supplied Referer header does not survive into
the resolved map. -/
theorem resolveHeaders_no_referer_witness :
    ("Referer", "https://example.com") ∉ [("User-Agent", "ua")] := by
  intro hmem
  exact resolveHeaders_no_referer (initialAuthState "ua" "app" "sec" none none)
    [("Referer", "https://example.com")] true [("User-Agent", "ua")] rfl
    ("Referer", "https://example.com") hmem rfl

/-- C10: the authenticate operation, fed a register response without a
usable valid_for (absent or zero), derives the expiry from the 23-hour
refresh-interval constant rather than the 24-hour validity constant, so
that token expires one hour earlier than one whose validity is reported
as 24 hours. -/
theorem authenticate_validity_fallback (now : Nat) (t : String) (a : AuthState)
    (h : shouldRefresh a now = true) :
    (∃ st, clientAuthenticate now ⟨none, t⟩ a =
      Except.ok (st, ⟨some now, some (now + AUTHENTICATION_TOKEN_REFRESH_INTERVAL), t⟩, true) ∧
      st.expiresAt = some (now + AUTHENTICATION_TOKEN_REFRESH_INTERVAL)) ∧
    (∃ st, clientAuthenticate now ⟨some 0, t⟩ a =
      Except.ok (st, ⟨some now, some (now + AUTHENTICATION_TOKEN_REFRESH_INTERVAL), t⟩, true) ∧
      st.expiresAt = some (now + AUTHENTICATION_TOKEN_REFRESH_INTERVAL)) ∧
    (∃ st, clientAuthenticate now ⟨some (S_IN_ONE_M * M_IN_ONE_H * H_IN_ONE_D), t⟩ a =
      Except.ok (st, ⟨some now, some (now + AUTHENTICATION_TOKEN_VALIDITY), t⟩, true) ∧
      st.expiresAt = some (now + AUTHENTICATION_TOKEN_VALIDITY)) ∧
    AUTHENTICATION_TOKEN_REFRESH_INTERVAL + AUTHENTICATION_TOKEN_VALIDITY_BUFFER =
      AUTHENTICATION_TOKEN_VALIDITY ∧
    AUTHENTICATION_TOKEN_REFRESH_INTERVAL ≠ AUTHENTICATION_TOKEN_VALIDITY := by
  refine ⟨?_, ?_, ?_, by decide, by decide⟩
  · refine ⟨{ a with
        authenticated := true
        issuedAt := some now
        expiresAt := some (now + AUTHENTICATION_TOKEN_REFRESH_INTERVAL)
        authenticationToken := some t }, ?_, rfl⟩
    simp [clientAuthenticate, h, resolvedValidFor]
  · refine ⟨{ a with
        authenticated := true
        issuedAt := some now
        expiresAt := some (now + AUTHENTICATION_TOKEN_REFRESH_INTERVAL)
        authenticationToken := some t }, ?_, rfl⟩
    simp [clientAuthenticate, h, resolvedValidFor]
  · refine ⟨{ a with
        authenticated := true
        issuedAt := some now
        expiresAt := some (now + AUTHENTICATION_TOKEN_VALIDITY)
        authenticationToken := some t }, ?_, rfl⟩
    simp [clientAuthenticate, h, resolvedValidFor, AUTHENTICATION_TOKEN_VALIDITY,
      MS_IN_ONE_D, MS_IN_ONE_H, MS_IN_ONE_M, MS_IN_ONE_S, S_IN_ONE_M, M_IN_ONE_H, H_IN_ONE_D]


/-- C10 witness: the fallback expiry at time zero on a fresh instance. -/
theorem authenticate_validity_fallback_witness :
    AUTHENTICATION_TOKEN_REFRESH_INTERVAL + AUTHENTICATION_TOKEN_VALIDITY_BUFFER =
      AUTHENTICATION_TOKEN_VALIDITY ∧
    AUTHENTICATION_TOKEN_REFRESH_INTERVAL ≠ AUTHENTICATION_TOKEN_VALIDITY := by
  have h := authenticate_validity_fallback 0 "tok"
    (initialAuthState "u" "a" "s" none none) (by decide)
  exact ⟨h.2.2.2.1, h.2.2.2.2⟩

/-- Membership through a property assignment: an entry of the updated
object is the assigned pair or an untouched entry at a different key. -/
theorem mem_objSet {α : Type} {m : List (String × α)} {k : String} {v : α}
    {p : String × α} (h : p ∈ objSet m k v) :
    p = (k, v) ∨ (p ∈ m ∧ p.1 ≠ k) := by
  rw [objSet] at h
  split at h
  · rw [List.mem_map] at h
    obtain ⟨q, hq, hfq⟩ := h
    by_cases hk : q.1 = k
    · rw [if_pos hk] at hfq
      exact Or.inl hfq.symm
    · rw [if_neg hk] at hfq
      refine Or.inr ⟨hfq ▸ hq, ?_⟩
      rw [← hfq]
      exact hk
  · rename_i hany
    rw [List.mem_append] at h
    rcases h with h | h
    · refine Or.inr ⟨h, ?_⟩
      intro hk
      rw [List.any_eq_true] at hany
      exact hany ⟨p, h, by simp [hk]⟩
    · rw [List.mem_singleton] at h
      exact Or.inl h

/-- C6 counterexample: getAuthenticationBody logs the generated body,
and that logged payload contains the application secret verbatim; the
secret therefore does reach the log output. -/
theorem secret_logged_counterexample :
    ("secret", "s3cr3t-value") ∈
      (getAuthenticationBodyLog (initialAuthState "ua" "app-id" "s3cr3t-value" none none)).2 := by
  decide

/-- C6 amended: getAuthenticationBody does log the application secret
(inside the generated-body debug payload), while the logged
representation of resolved request options is redacted: its
Authorization entry is always the literal redaction marker, its
enterprise-token entry is the redaction marker or undefined, and every
other logged entry is a verbatim non-auth header of the real request. -/
theorem secret_logging_amended :
    (∀ a : AuthState, ("secret", a.applicationSecret) ∈ (getAuthenticationBodyLog a).2) ∧
    (∀ (headers : List (String × String)) (p : String × Option String),
      p ∈ loggedHeadersRep headers →
      (p.1 = "Authorization" → p.2 = some "Bearer [REDACTED]") ∧
      (p.1 = "X-Enterprise-Access-Token" → p.2 = some "[REDACTED]" ∨ p.2 = none) ∧
      (p.1 ≠ "Authorization" → p.1 ≠ "X-Enterprise-Access-Token" →
        ∃ q ∈ headers, p = (q.1, some q.2))) := by
  constructor
  · intro a
    simp [getAuthenticationBodyLog, getAuthenticationBody]
  · intro headers p hp
    rw [loggedHeadersRep] at hp
    rcases mem_objSet hp with hent | ⟨hp2, hkent⟩
    · have hp1 : p.1 = "X-Enterprise-Access-Token" := by rw [hent]
      refine ⟨?_, ?_, ?_⟩
      · intro hk
        rw [hp1] at hk
        exact absurd hk (by decide)
      · intro _
        rw [hent]
        dsimp only
        split
        · exact Or.inl rfl
        · exact Or.inr rfl
      · intro _ hke
        exact absurd hp1 hke
    · rcases mem_objSet hp2 with hauth | ⟨hp3, hkauth⟩
      · have hp1 : p.1 = "Authorization" := by rw [hauth]
        refine ⟨?_, ?_, ?_⟩
        · intro _
          rw [hauth]
        · intro hk
          rw [hp1] at hk
          exact absurd hk (by decide)
        · intro hka _
          exact absurd hp1 hka
      · refine ⟨?_, ?_, ?_⟩
        · intro hk
          exact absurd hk hkauth
        · intro hk
          exact absurd hk hkent
        · intro _ _
          rw [List.mem_map] at hp3
          obtain ⟨q, hq, hfq⟩ := hp3
          exact ⟨q, hq, hfq.symm⟩

/-- C6 witness: the redaction contract applied at a concrete resolved
header map containing a real bearer value. -/
theorem secret_logging_amended_witness :
    ("secret", "app-secret") ∈
      (getAuthenticationBodyLog (initialAuthState "u" "a" "app-secret" none none)).2 ∧
    (("Authorization", some "Bearer [REDACTED]") : String × Option String).2 =
      some "Bearer [REDACTED]" := by
  constructor
  · exact secret_logging_amended.1 (initialAuthState "u" "a" "app-secret" none none)
  · exact (secret_logging_amended.2 [("Authorization", "Bearer real-token")]
      ("Authorization", some "Bearer [REDACTED]") (by decide)).1 rfl

/-- C4: after any completed sequential performRefresh whose acquired
validity exceeds the buffer, the token is fresh, so an immediately
following performRefresh observes a false shouldRefresh and returns as
a no-op, leaving the whole state unchanged and performing no network
round-trip. -/
theorem performRefresh_idempotent (now : Nat) (resp : AuthResponse) (a s1 : AuthState) (b1 : Bool)
    (hbuf : AUTHENTICATION_TOKEN_VALIDITY_BUFFER < resolvedValidFor resp.valid_for)
    (h : performRefreshSeq now resp a = Except.ok (s1, b1)) :
    shouldRefresh s1 now = false ∧ performRefreshSeq now resp s1 = Except.ok (s1, false) := by
  by_cases hsr : shouldRefresh a now = true
  · have hsr1 : shouldRefresh { a with currentlyRefreshing := true } now = true := hsr
    simp [performRefreshSeq, clientAuthenticate, hsr, hsr1] at h
    obtain ⟨hs, hb⟩ := h
    have hfresh : shouldRefresh s1 now = false := by
      refine shouldRefresh_of_fresh s1 now now (resolvedValidFor resp.valid_for) hbuf ?_ ?_
      · rw [← hs]
      · rw [← hs]
    refine ⟨hfresh, ?_⟩
    simp [performRefreshSeq, hfresh]
  · rw [Bool.not_eq_true] at hsr
    rw [performRefreshSeq, hsr] at h
    simp at h
    obtain ⟨hs, hb⟩ := h
    subst hs
    exact ⟨hsr, by simp [performRefreshSeq, hsr]⟩

/-- C4 witness: a refresh at time zero on a fresh instance with a
24-hour reported validity, followed by a second refresh that is a
no-op. -/
theorem performRefresh_idempotent_witness :
    shouldRefresh
      { userAgent := "u"
        applicationId := "i"
        applicationSecret := "s"
        serverApiId := none
        enterpriseToken := none
        issuedAt := some 0
        expiresAt := some 86400000
        currentlyRefreshing := false
        authenticated := true
        authenticationToken := some "tok" } 0 = false ∧
    performRefreshSeq 0 ⟨some 86400, "tok"⟩
      { userAgent := "u"
        applicationId := "i"
        applicationSecret := "s"
        serverApiId := none
        enterpriseToken := none
        issuedAt := some 0
        expiresAt := some 86400000
        currentlyRefreshing := false
        authenticated := true
        authenticationToken := some "tok" } =
      Except.ok
        ({ userAgent := "u"
           applicationId := "i"
           applicationSecret := "s"
           serverApiId := none
           enterpriseToken := none
           issuedAt := some 0
           expiresAt := some 86400000
           currentlyRefreshing := false
           authenticated := true
           authenticationToken := some "tok" }, false) :=
  performRefresh_idempotent 0 ⟨some 86400, "tok"⟩
    (initialAuthState "u" "i" "s" none none) _ true (by decide) rfl

/-- A completed authenticate call preserves the token-presence
invariant: the cached path leaves the state alone and the network path
stores a token together with the flag. -/
theorem clientAuthenticate_preserves_token {now : Nat} {resp : AuthResponse}
    {a s : AuthState} {ca : ClientAuthentication} {b : Bool}
    (h : clientAuthenticate now resp a = Except.ok (s, ca, b))
    (ih : a.authenticated = true → a.authenticationToken ≠ none) :
    s.authenticated = true → s.authenticationToken ≠ none := by
  rw [clientAuthenticate] at h
  split at h
  · split at h
    · rename_i ca2 hct
      obtain rfl : a = s := by
        injection h with h
        injection h with h1 h2
      exact ih
    · exact absurd h (by simp)
  · simp only [Except.ok.injEq, Prod.mk.injEq] at h
    obtain ⟨hs, -, -⟩ := h
    rw [← hs]
    intro _
    simp

/-- A completed sequential performRefresh preserves the token-presence
invariant. -/
theorem performRefreshSeq_preserves_token {now : Nat} {resp : AuthResponse}
    {a s : AuthState} {b : Bool}
    (h : performRefreshSeq now resp a = Except.ok (s, b))
    (ih : a.authenticated = true → a.authenticationToken ≠ none) :
    s.authenticated = true → s.authenticationToken ≠ none := by
  rw [performRefreshSeq] at h
  split at h
  · obtain rfl : a = s := by
      injection h with h
      injection h with h1 h2
    exact ih
  · dsimp only at h
    split at h
    · exact absurd h (by simp)
    · rename_i a2 ca b2 hca
      simp only [Except.ok.injEq, Prod.mk.injEq] at h
      obtain ⟨hs, -⟩ := h
      rw [← hs]
      intro _
      simp

/-- C5: in every Authenticator state reachable from construction by any
sequence of its operations, a raised authenticated flag implies a
stored non-null token. -/
theorem authenticated_implies_token (ua aid asec : String) (sid ent : Option String)
    (s : AuthState)
    (h : AuthReachable (initialAuthState ua aid asec sid ent) s) :
    s.authenticated = true → s.authenticationToken ≠ none := by
  induction h with
  | refl =>
    intro hauth
    exact absurd hauth (by simp [initialAuthState])
  | tail hr hstep ih =>
    cases hstep with
    | authenticateOp now resp a t ca b hok => exact clientAuthenticate_preserves_token hok ih
    | performRefreshOp now resp a t b hok => exact performRefreshSeq_preserves_token hok ih
    | setRefreshingOp b a => exact ih

/-- C5 witness: after one network authenticate operation from a fresh
instance, the flag is up and the theorem yields a stored token. -/
theorem authenticated_implies_token_witness :
    ({ userAgent := "u"
       applicationId := "i"
       applicationSecret := "s"
       serverApiId := none
       enterpriseToken := none
       issuedAt := some 0
       expiresAt := some 86400000
       currentlyRefreshing := false
       authenticated := true
       authenticationToken := some "tok" } : AuthState).authenticationToken ≠ none := by
  refine authenticated_implies_token "u" "i" "s" none none _
    (Relation.ReflTransGen.single ?_) rfl
  exact AuthOpStep.authenticateOp 0 ⟨some 86400, "tok"⟩
    (initialAuthState "u" "i" "s" none none) _ ⟨some 0, some 86400000, "tok"⟩ true rfl

/-- C2: from the initial system of N concurrent operations over a
freshly constructed unauthenticated Authenticator, under the
cooperative scheduler and a stub validity above the buffer: every
reachable state has performed at most one token-acquisition network
call, no task has failed, every finished task finished after the single
network call completed and its result was stored, and when all tasks
are finished exactly one network call has been performed. -/
theorem concurrent_refresh_single_flight {n : Nat} (now : Nat) (resp : AuthResponse)
    (ua aid asec : String) (sid ent : Option String) (s : SysState n)
    (hbuf : AUTHENTICATION_TOKEN_VALIDITY_BUFFER < resolvedValidFor resp.valid_for)
    (hreach : SysReachable now resp (initSys n (initialAuthState ua aid asec sid ent)) s) :
    s.networkCalls ≤ 1 ∧
    (∀ i, s.pcs i ≠ TaskPc.failed) ∧
    (∀ i, s.pcs i = TaskPc.done →
      s.networkCalls = 1 ∧ s.auth.authenticationToken = some resp.token ∧
      s.auth.authenticated = true) ∧
    ((∀ i, s.pcs i = TaskPc.done) → 0 < n → s.networkCalls = 1) := by
  obtain ⟨h1, h2, h3, h4, h5, h6, h7, h8, h9⟩ := sysInv_reachable hbuf hreach
  refine ⟨h1, h9, ?_, ?_⟩
  · intro i hi
    have hc1 := h8 i hi
    obtain ⟨-, -, ht, ha⟩ := h3 hc1
    exact ⟨hc1, ht, ha⟩
  · intro hall hn
    exact h8 ⟨0, hn⟩ (hall ⟨0, hn⟩)

/-- The intermediate states of a concrete two-task schedule: task zero
enters the refresh, task one observes the in-flight refresh and waits,
task zero performs the single network call and stores the result, task
one then re-enters, short-circuits on the fresh token and finishes. -/
def cc2States : List (SysState 2) :=
  let a0 := initialAuthState "ua" "app" "sec" none none
  let s0 : SysState 2 := initSys 2 a0
  let s1 : SysState 2 :=
    { s0 with
        auth := { s0.auth with currentlyRefreshing := true }
        pcs := Function.update s0.pcs 0 TaskPc.auth }
  let s2 : SysState 2 := { s1 with pcs := Function.update s1.pcs 1 TaskPc.waiting }
  let s3 : SysState 2 := { s2 with pcs := Function.update s2.pcs 0 TaskPc.net }
  let s4 : SysState 2 :=
    { s3 with
        auth := { s3.auth with
            authenticated := true
            issuedAt := some 0
            expiresAt := some 86400000
            authenticationToken := some "tok1" }
        networkCalls := s3.networkCalls + 1
        pcs := Function.update s3.pcs 0 (TaskPc.store ⟨some 0, some 86400000, "tok1"⟩) }
  let s5 : SysState 2 :=
    { s4 with
        auth := { s4.auth with
            issuedAt := some 0
            expiresAt := some 86400000
            authenticationToken := some "tok1"
            currentlyRefreshing := false }
        pcs := Function.update s4.pcs 0 TaskPc.done }
  let s6 : SysState 2 :=
    { s5 with
        auth := { s5.auth with currentlyRefreshing := true }
        pcs := Function.update s5.pcs 1 TaskPc.auth }
  let s7 : SysState 2 :=
    { s6 with pcs := Function.update s6.pcs 1 (TaskPc.store ⟨some 0, some 86400000, "tok1"⟩) }
  let s8 : SysState 2 :=
    { s7 with
        auth := { s7.auth with
            issuedAt := some 0
            expiresAt := some 86400000
            authenticationToken := some "tok1"
            currentlyRefreshing := false }
        pcs := Function.update s7.pcs 1 TaskPc.done }
  [s0, s1, s2, s3, s4, s5, s6, s7, s8]

/-- C2 witness: running the concrete two-task schedule to completion,
the theorem reports exactly one network call, with the token stored and
the flag up in the final state. -/
theorem concurrent_refresh_single_flight_witness :
    ((cc2States.getD 8 (initSys 2 (initialAuthState "ua" "app" "sec" none none))).networkCalls = 1) ∧
    ((cc2States.getD 8 (initSys 2 (initialAuthState "ua" "app" "sec" none none))).auth.authenticated
      = true) := by
  have hreach : SysReachable 0 ⟨some 86400, "tok1"⟩
      (initSys 2 (initialAuthState "ua" "app" "sec" none none))
      (cc2States.getD 8 (initSys 2 (initialAuthState "ua" "app" "sec" none none))) := by
    refine Relation.ReflTransGen.head
      (SysStep.startEnter _ 0 rfl (by decide) rfl) ?_
    refine Relation.ReflTransGen.head
      (SysStep.startWait _ 1 rfl (by decide) rfl) ?_
    refine Relation.ReflTransGen.head
      (SysStep.authNet _ 0 rfl (by decide)) ?_
    refine Relation.ReflTransGen.head
      (SysStep.netComplete _ 0 rfl) ?_
    refine Relation.ReflTransGen.head
      (SysStep.storeDone _ 0 ⟨some 0, some 86400000, "tok1"⟩ rfl) ?_
    refine Relation.ReflTransGen.head
      (SysStep.waitEnter _ 1 rfl rfl) ?_
    refine Relation.ReflTransGen.head
      (SysStep.authShort _ 1 ⟨some 0, some 86400000, "tok1"⟩ rfl (by decide) rfl) ?_
    refine Relation.ReflTransGen.head
      (SysStep.storeDone _ 1 ⟨some 0, some 86400000, "tok1"⟩ rfl) ?_
    exact Relation.ReflTransGen.refl
  have h := concurrent_refresh_single_flight 0 ⟨some 86400, "tok1"⟩
    "ua" "app" "sec" none none _ (by decide) hreach
  refine ⟨h.2.2.2 ?_ (by decide), (h.2.2.1 1 ?_).2.2⟩
  · intro i
    fin_cases i <;> decide
  · decide

/-- The status-and-slug rows of the specification's mapping table. -/
def errorTable : List ((Nat × String) × ErrorKind) :=
  [((400, "invalid-method"), ErrorKind.invalidMethod),
   ((400, "parameter-required"), ErrorKind.parameterRequired),
   ((400, "failed-type-validation"), ErrorKind.failedTypeValidation),
   ((400, "invalid-option"), ErrorKind.invalidOption),
   ((400, "max-length-exceeded"), ErrorKind.maxLengthExceeded),
   ((400, "min-length-too-small"), ErrorKind.minLengthNotReached),
   ((400, "length-missmatch"), ErrorKind.lengthMismatch),
   ((400, "duplicate"), ErrorKind.duplicateEntry),
   ((401, "login-required"), ErrorKind.loginRequired),
   ((403, "token-regeneration-required"), ErrorKind.tokenRegenerationRequired),
   ((403, "bad-secret"), ErrorKind.badSecret),
   ((403, "bad-token"), ErrorKind.badToken),
   ((403, "expired-token"), ErrorKind.expiredToken),
   ((403, "no-grant"), ErrorKind.noGrant),
   ((404, "not-found"), ErrorKind.notFound),
   ((404, "invalid-resource"), ErrorKind.invalidResource),
   ((404, "invalid-bucket"), ErrorKind.invalidBucket),
   ((500, "unexpected"), ErrorKind.unexpected),
   ((500, "timeout"), ErrorKind.timeout),
   ((500, "system-unavailable"), ErrorKind.systemUnavailable)]

/-- Row lookup in the mapping table by status and slug. -/
def tableLookup : List ((Nat × String) × ErrorKind) → Nat → String → Option ErrorKind
  | [], _, _ => none
  | ((st, sl), k) :: rest, status, slug =>
    if status = st ∧ slug = sl then some k else tableLookup rest status slug

/-- The amended claim's mapping, written from the specification table
plus the corrected fall-back rule: a table row gives its typed error, a
429 of any slug gives RateLimit, and an unmapped combination (an
unlisted slug or an unusable body) falls back to the generic
HTTPRequest error, except at status 404, where the fall-back is the
typed NotFound error. -/
def amendedMappingKind (status : Nat) (slug : Option String) : ErrorKind :=
  if status = 429 then
    ErrorKind.rateLimit
  else
    match slug with
    | some sl =>
      match tableLookup errorTable status sl with
      | some k => k
      | none => if status = 404 then ErrorKind.notFound else ErrorKind.httpRequest
    | none => if status = 404 then ErrorKind.notFound else ErrorKind.httpRequest

/-- C1 counterexample: a 404 whose slug is listed in no table row is
mapped to the typed NotFound error, not to the generic HTTPRequest
error the claim's fall-back sentence requires. -/
theorem error_mapping_counterexample :
    (errorHandler "https://data.cftools.cloud/v2/x" "GET" 404 (slugBody "unmapped-slug")).kind =
      ErrorKind.notFound ∧
    ErrorKind.notFound ≠ ErrorKind.httpRequest := by
  exact ⟨rfl, by decide⟩

/-- C1 amended: the error handler realizes exactly the specification
table with the corrected fall-back rule, and every produced error
carries the raw status, URL, method and body. -/
theorem error_mapping_amended (url method : String) (status : Nat) (body : Option Json) :
    errorHandler url method status body =
      ⟨amendedMappingKind status (safeErrorSlug body), ⟨status, url, method, body⟩⟩ := by
  rw [errorHandler, amendedMappingKind.eq_def]
  generalize safeErrorSlug body = slug
  by_cases h429 : status = 429
  · subst h429
    simp
  · by_cases h400 : status = 400
    · subst h400
      simp only [if_true, if_neg (by decide : ¬(400 = 429)), reduceIte]
      cases slug with
      | none => rfl
      | some sl =>
        by_cases e1 : sl = "invalid-method"
        · subst e1; rfl
        by_cases e2 : sl = "parameter-required"
        · subst e2; rfl
        by_cases e3 : sl = "failed-type-validation"
        · subst e3; rfl
        by_cases e4 : sl = "invalid-option"
        · subst e4; rfl
        by_cases e5 : sl = "max-length-exceeded"
        · subst e5; rfl
        by_cases e6 : sl = "min-length-too-small"
        · subst e6; rfl
        by_cases e7 : sl = "length-missmatch"
        · subst e7; rfl
        by_cases e8 : sl = "duplicate"
        · subst e8; rfl
        simp [errorTable, tableLookup, e1, e2, e3, e4, e5, e6, e7, e8]
    · by_cases h401 : status = 401
      · subst h401
        simp only [if_neg (by decide : ¬(401 = 429)), if_neg (by decide : ¬(401 = 400)), reduceIte]
        cases slug with
        | none => rfl
        | some sl =>
          by_cases e1 : sl = "login-required"
          · subst e1; rfl
          simp [errorTable, tableLookup, e1]
      · by_cases h403 : status = 403
        · subst h403
          simp only [if_neg (by decide : ¬(403 = 429)), if_neg (by decide : ¬(403 = 400)),
            if_neg (by decide : ¬(403 = 401)), reduceIte]
          cases slug with
          | none => rfl
          | some sl =>
            by_cases e1 : sl = "token-regeneration-required"
            · subst e1; rfl
            by_cases e2 : sl = "bad-secret"
            · subst e2; rfl
            by_cases e3 : sl = "bad-token"
            · subst e3; rfl
            by_cases e4 : sl = "expired-token"
            · subst e4; rfl
            by_cases e5 : sl = "no-grant"
            · subst e5; rfl
            simp [errorTable, tableLookup, e1, e2, e3, e4, e5]
        · by_cases h404 : status = 404
          · subst h404
            simp only [if_neg (by decide : ¬(404 = 429)), if_neg (by decide : ¬(404 = 400)),
              if_neg (by decide : ¬(404 = 401)), if_neg (by decide : ¬(404 = 403)), reduceIte]
            cases slug with
            | none => rfl
            | some sl =>
              by_cases e1 : sl = "not-found"
              · subst e1; rfl
              by_cases e2 : sl = "invalid-resource"
              · subst e2; rfl
              by_cases e3 : sl = "invalid-bucket"
              · subst e3; rfl
              simp [errorTable, tableLookup, e1, e2, e3]
          · by_cases h500 : status = 500
            · subst h500
              simp only [if_neg (by decide : ¬(500 = 429)), if_neg (by decide : ¬(500 = 400)),
                if_neg (by decide : ¬(500 = 401)), if_neg (by decide : ¬(500 = 403)),
                if_neg (by decide : ¬(500 = 404)), reduceIte]
              cases slug with
              | none => rfl
              | some sl =>
                by_cases e1 : sl = "unexpected"
                · subst e1; rfl
                by_cases e2 : sl = "timeout"
                · subst e2; rfl
                by_cases e3 : sl = "system-unavailable"
                · subst e3; rfl
                simp [errorTable, tableLookup, e1, e2, e3]
            · simp only [if_neg h429, if_neg h400, if_neg h401, if_neg h403, if_neg h404,
                if_neg h500]
              cases slug with
              | none => rfl
              | some sl =>
                have hlk : tableLookup errorTable status sl = none := by
                  simp [errorTable, tableLookup, h400, h401, h403, h404, h500]
                dsimp only
                rw [hlk]

end CFTools
